import Mathlib

/-!
Shallow embedding of `src/orchestrator/orchestrator.py` from the
langgraph-multiagent-5g-6g repository: the `StrategicOrchestrator` class, its
`OrchestratorState` TypedDict, the linear LangGraph pipeline built by
`_build_graph`, and the `step` / `get_debug_info` operations.

Modelling conventions:
- Python dict key presence is modelled with `Option`: a field holding `none`
  corresponds to the key being absent from `self.state` (so `d.get(k)` is the
  `Option` value itself and `d.get(k, v)` is `Option.getD`).
- The four stage nodes (`EstimatorNode`, `StrategistNode`, `ShieldNode`,
  `ConfiguratorNode`) and the `TacticalExecutor` live in repository files not
  present under src/; the spec treats them as opaque external collaborators, so
  they are parameters of the model (a stage is any function from the graph
  state to a partial update or a raised error).
- Python ints are unbounded; the step counter and the decision interval are
  `Nat` (the counter starts at 0 and is only incremented; no claim exercises a
  negative interval, and for nonnegative operands Python `%` agrees with
  `Nat.mod` except at 0, where Python raises `ZeroDivisionError` — modelled
  explicitly).
- Metric values are floats in Python but the orchestrator core never inspects
  them (they are passed through to the opaque stages), so an integer stand-in
  type is used.
-/

/-- Stand-in for the raw simulation metrics dict (`Dict[str, float]`); values
are opaque to the orchestrator core. -/
abbrev Metrics := List (String × Int)

/-- Stand-in for the agent's raw observation vector (opaque to the core). -/
abbrev Observation := List Int

/-- The tactical action: the selected cell index returned by
`TacticalExecutor.act`. -/
abbrev TacticalAction := Int

/-- Stand-in for the symbolic state produced by the Estimator (opaque). -/
abbrev SymbolicState := List (String × String)

/-- Stand-in for the applied parameter mapping produced by the Configurator. -/
abbrev Params := List (String × String)

/-- Stand-in for one history entry (a past cycle summary, opaque). -/
abbrev HistEntry := List (String × String)

/-- Modelled from the spec: `ControlMode` from `schemas.py` (a repository file
absent from src/); §3 of the spec describes it as a finite closed enumeration
of named operating modes BALANCED, CONSERVATIVE, AGGRESSIVE, EMERGENCY. -/
inductive ControlMode
  | BALANCED
  | CONSERVATIVE
  | AGGRESSIVE
  | EMERGENCY
deriving DecidableEq

/-- Modelled from the spec: the `.value` string of the Python enum member (the
concrete strings are not observable in src/; only equality between mode strings
matters to the orchestrator core). -/
def ControlMode.value : ControlMode → String
  | .BALANCED => "balanced"
  | .CONSERVATIVE => "conservative"
  | .AGGRESSIVE => "aggressive"
  | .EMERGENCY => "emergency"

/-- Python exceptions that can escape the orchestrator core. `stageError` is
the spec's StageError (a stage failing mid-cycle); `zeroDivisionError` is
raised by Python `%` with a zero divisor; `graphRecursionError` is LangGraph's
recursion-limit error (never reached by the linear 4-node graph). -/
inductive PyError
  | stageError
  | zeroDivisionError
  | graphRecursionError
deriving DecidableEq

/-- The `OrchestratorState` TypedDict (source lines 10-20). Every field is
`Option`al because the underlying Python dict starts with only `step`,
`current_mode` and `history` present (source lines 49-53) and gains keys as
stage outputs are merged in. -/
structure OrchestratorState where
  step : Option Nat
  metrics : Option Metrics
  symbolic_state : Option SymbolicState
  reasoning : Option String
  proposed_mode : Option String
  final_mode : Option String
  shield_active : Option Bool
  applied_params : Option Params
  history : Option (List HistEntry)
  current_mode : Option String
deriving DecidableEq

/-- The state with no keys present (the empty dict). -/
def OrchestratorState.empty : OrchestratorState :=
  { step := none, metrics := none, symbolic_state := none, reasoning := none,
    proposed_mode := none, final_mode := none, shield_active := none,
    applied_params := none, history := none, current_mode := none }

/-- Per-key semantics of Python `dict.update`: a key present in the update
overwrites, an absent key leaves the old value. -/
def pick {α : Type} (old new : Option α) : Option α :=
  match new with
  | some v => some v
  | none => old

/-- Python `dict.update` on orchestrator states: every key present in `u`
overwrites the corresponding key of `s`. Used both for LangGraph's merge of a
node's partial update into the running graph state and for
`self.state.update(final_state)` (source line 108). -/
def OrchestratorState.merge (s u : OrchestratorState) : OrchestratorState :=
  { step := pick s.step u.step,
    metrics := pick s.metrics u.metrics,
    symbolic_state := pick s.symbolic_state u.symbolic_state,
    reasoning := pick s.reasoning u.reasoning,
    proposed_mode := pick s.proposed_mode u.proposed_mode,
    final_mode := pick s.final_mode u.final_mode,
    shield_active := pick s.shield_active u.shield_active,
    applied_params := pick s.applied_params u.applied_params,
    history := pick s.history u.history,
    current_mode := pick s.current_mode u.current_mode }

/-- A pipeline stage: one of the four node `run` functions wrapped by
`_build_graph` (source lines 60-63). A stage sees the current graph state and
either returns a partial update (the keys it sets) or raises. The concrete
node classes are repository files absent from src/ and are opaque external
collaborators per the spec, so stages are parameters of the model. -/
abbrev Stage := OrchestratorState → Except PyError OrchestratorState

/-- A compiled LangGraph workflow: named nodes, directed edges, entry point
(the result of `workflow.compile()`). -/
structure CompiledGraph where
  nodes : List (String × Stage)
  edges : List (String × String)
  entry : String

/-- LangGraph's sentinel terminal node `END`. -/
def ENDNode : String := "__end__"

/-- Modelled from the spec (and LangGraph's documented semantics; LangGraph is
an external library): execute the graph from node `cur`, applying each node to
the running state, merging its partial update, and following the unique
outgoing edge until `END`; a node's raised error propagates; `fuel` is the
recursion limit, whose exhaustion raises `GraphRecursionError`. -/
def invokeFrom (nodes : List (String × Stage)) (edges : List (String × String)) :
    Nat → String → OrchestratorState → Except PyError OrchestratorState
  | 0, _, _ => .error .graphRecursionError
  | fuel + 1, cur, s =>
    if cur = ENDNode then .ok s
    else
      match nodes.lookup cur with
      | none => .error .graphRecursionError
      | some stage =>
        match stage s with
        | .error e => .error e
        | .ok u =>
          match edges.lookup cur with
          | none => .ok (s.merge u)
          | some nxt => invokeFrom nodes edges fuel nxt (s.merge u)

/-- LangGraph's default recursion limit. -/
def recursionLimit : Nat := 25

/-- `graph.invoke(input)`: run the compiled workflow from its entry point. -/
def CompiledGraph.invoke (g : CompiledGraph) (input : OrchestratorState) :
    Except PyError OrchestratorState :=
  invokeFrom g.nodes g.edges recursionLimit g.entry input

/-- The `StrategicOrchestrator` object: the tactical executor's `act` function
(`TacticalExecutor` is an external collaborator whose file is absent from
src/), the four stage nodes, and the persistent `self.state` dict. -/
structure StrategicOrchestrator where
  tactical : Observation → TacticalAction
  estimator_node : Stage
  strategist_node : Stage
  shield_node : Stage
  configurator_node : Stage
  state : OrchestratorState

/-- `_build_graph` (source lines 55-72): the four nodes and the linear edges
Est → Strat → Shield → Config → END, entry point `estimator`. -/
def StrategicOrchestrator.build_graph (o : StrategicOrchestrator) : CompiledGraph :=
  { nodes := [("estimator", o.estimator_node), ("strategist", o.strategist_node),
      ("shield", o.shield_node), ("configurator", o.configurator_node)],
    edges := [("estimator", "strategist"), ("strategist", "shield"),
      ("shield", "configurator"), ("configurator", ENDNode)],
    entry := "estimator" }

/-- `__init__` (source lines 33-53): store the collaborators and create the
initial `self.state` dict with keys `step = 0`,
`current_mode = ControlMode.BALANCED.value` and `history = []` only. -/
def mkOrchestrator (tactical : Observation → TacticalAction)
    (est strat shield config : Stage) : StrategicOrchestrator :=
  { tactical := tactical, estimator_node := est, strategist_node := strat,
    shield_node := shield, configurator_node := config,
    state := { OrchestratorState.empty with
      step := some 0,
      current_mode := some ControlMode.BALANCED.value,
      history := some [] } }

/-- `self.state["step"] += 1` (source line 87): overwrite the `step` key with
its incremented value. The key is always present (set to 0 at construction,
never deleted), so the `getD 0` default is unreachable. -/
def OrchestratorState.bump (s : OrchestratorState) : OrchestratorState :=
  { s with step := some (s.step.getD 0 + 1) }

/-- The `graph_input` dict built at source lines 96-102 from the (already
incremented) persistent state `s1` and the fresh metrics: the keys `step`,
`metrics`, `current_mode` (via `.get`, so possibly absent) and `history`
(via `.get` with default `[]`). -/
def graphInput (s1 : OrchestratorState) (metrics : Metrics) : OrchestratorState :=
  { OrchestratorState.empty with
    step := s1.step,
    metrics := some metrics,
    current_mode := s1.current_mode,
    history := some (s1.history.getD []) }

/-- The commit at source lines 108-112: `self.state.update(final_state)`
followed by `self.state["current_mode"] = self.state.get("final_mode",
self.state["current_mode"])`. The inner lookup is a plain `[]` access;
`current_mode` is always present there (`graph_input` carries it), so the
`getD ""` default is unreachable. -/
def commitState (s1 final_state : OrchestratorState) : OrchestratorState :=
  let s2 := s1.merge final_state
  { s2 with current_mode := some (s2.final_mode.getD (s2.current_mode.getD "")) }

/-- Result of one call to `StrategicOrchestrator.step`: the orchestrator after
the call (its mutated `self.state`), the returned action or the propagated
exception, and whether the strategic-cycle branch was entered on this call
(the branch guarded by source line 91). -/
structure StepResult where
  orch : StrategicOrchestrator
  result : Except PyError TacticalAction
  cycleRan : Bool

/-- `step` (source lines 74-118). Mirrors the source exactly:
`self.state["step"] += 1` first (line 87); then the modulus trigger check
(line 91; Python `%` by zero raises `ZeroDivisionError`, leaving the already
incremented counter in place); when triggered, build `graph_input` from fresh
metrics plus the preserved `step`, `current_mode` and `history` keys
(lines 96-102, where `current_mode` uses `.get` with no default and `history`
uses `.get` with default `[]`), invoke the graph (line 105; an exception
propagates, skipping the rest of the call), `self.state.update(final_state)`
(line 108), then `self.state["current_mode"] =
self.state.get("final_mode", self.state["current_mode"])` (line 112; the inner
lookup is a plain `[]` access — `current_mode` is always present at that point
since `graph_input` carries it, so the `getD ""` default is unreachable);
finally `action = self.tactical.act(observation)` (line 116). The `verbose`
flag only controls a debug print and is omitted. -/
def StrategicOrchestrator.step (o : StrategicOrchestrator) (metrics : Metrics)
    (observation : Observation) (decision_interval : Nat) : StepResult :=
  let s1 := o.state.bump
  if decision_interval = 0 then
    ⟨{ o with state := s1 }, .error .zeroDivisionError, false⟩
  else if s1.step.getD 0 % decision_interval = 0 then
    match ({ o with state := s1 }).build_graph.invoke (graphInput s1 metrics) with
    | .error e => ⟨{ o with state := s1 }, .error e, true⟩
    | .ok final_state =>
      ⟨{ o with state := commitState s1 final_state },
        .ok (o.tactical observation), true⟩
  else
    ⟨{ o with state := s1 }, .ok (o.tactical observation), false⟩

/-- The explainability snapshot returned by `get_debug_info`. -/
structure DebugInfo where
  mode : Option String
  symbolic_state : Option SymbolicState
  reasoning : Option String
  shield_active : Option Bool
deriving DecidableEq

/-- `get_debug_info` (source lines 120-127): return the four `.get` lookups on
`self.state`; the orchestrator is returned unchanged alongside the snapshot to
make the absence of side effects an explicit part of the model. -/
def StrategicOrchestrator.get_debug_info (o : StrategicOrchestrator) :
    StrategicOrchestrator × DebugInfo :=
  (o, { mode := o.state.final_mode,
        symbolic_state := o.state.symbolic_state,
        reasoning := o.state.reasoning,
        shield_active := o.state.shield_active })

/-- Iterate `n` calls to `step` with fixed per-call arguments, keeping the
orchestrator threaded through (a call sequence of the external caller). -/
def runSteps (metrics : Metrics) (observation : Observation)
    (decision_interval : Nat) : StrategicOrchestrator → Nat → StrategicOrchestrator
  | o, 0 => o
  | o, n + 1 => runSteps metrics observation decision_interval
      (o.step metrics observation decision_interval).orch n

/-- The strategic pipeline written as the explicit left fold the spec
describes: Estimator, then Strategist, then Shield, then Configurator, each
stage's partial update merged into the running state before the next stage
runs, any raised error aborting the rest. Stated-for-comparison definition
(spec §4.2); the source's pipeline is `CompiledGraph.invoke` on `build_graph`. -/
def runPipeline (est strat shield config : Stage)
    (s : OrchestratorState) : Except PyError OrchestratorState :=
  match est s with
  | .error e => .error e
  | .ok u1 =>
    let s1 := s.merge u1
    match strat s1 with
    | .error e => .error e
    | .ok u2 =>
      let s2 := s1.merge u2
      match shield s2 with
      | .error e => .error e
      | .ok u3 =>
        let s3 := s2.merge u3
        match config s3 with
        | .error e => .error e
        | .ok u4 => .ok (s3.merge u4)

/-- Spec §4.3-4.6 stage contract fragment: a stage's partial update never sets
the `step` key (no stage's declared output includes the tick counter). -/
def PreservesStep (f : Stage) : Prop :=
  ∀ s u, f s = .ok u → u.step = none

/-- Spec §4.5 Shield contract fragment: a successful Shield run always sets
`final_mode` (its declared output). -/
def SetsFinalMode (f : Stage) : Prop :=
  ∀ s u, f s = .ok u → u.final_mode.isSome

/-- A trivial stage for concrete instantiations: succeeds with an empty
partial update. -/
def idStage : Stage := fun _ => .ok OrchestratorState.empty

/-- A stage that raises `StageError` on every input. -/
def failStage : Stage := fun _ => .error .stageError

/-- A shield-shaped stage for concrete instantiations: always approves the
given mode (sets `final_mode` and `shield_active` only). -/
def constShield (mode : String) : Stage := fun _ =>
  .ok { OrchestratorState.empty with final_mode := some mode, shield_active := some false }

/-- A trivial tactical policy for concrete instantiations. -/
def zeroAct : Observation → TacticalAction := fun _ => 0

/-- A concrete orchestrator with trivial collaborators: well-behaved stages
(the shield approves AGGRESSIVE, the others return empty updates). -/
def sampleOrch : StrategicOrchestrator :=
  mkOrchestrator zeroAct idStage idStage (constShield ControlMode.AGGRESSIVE.value) idStage

/-- A concrete orchestrator whose Estimator raises `StageError` on every
input. -/
def failingEstOrch : StrategicOrchestrator :=
  mkOrchestrator zeroAct failStage idStage (constShield ControlMode.AGGRESSIVE.value) idStage

/-- `true` iff a `step` call returned an action (rather than propagating an
exception). -/
def returnedAction : Except PyError TacticalAction → Bool
  | .ok _ => true
  | .error _ => false

/-! ### Shared lemmas about the embedding -/

theorem pick_none {α : Type} (o : Option α) : pick o none = o := rfl

theorem pick_some {α : Type} (o : Option α) (v : α) : pick o (some v) = some v := rfl

/-- Merging an update that does not set `step` leaves the `step` key
unchanged. -/
theorem merge_step_of_none (s u : OrchestratorState) (h : u.step = none) :
    (s.merge u).step = s.step := by
  simp [OrchestratorState.merge, h, pick]

/-- A merge whose update sets `final_mode` yields a present `final_mode`;
so does a merge into a state whose `final_mode` is already present. -/
theorem merge_final_mode_isSome (s u : OrchestratorState)
    (h : u.final_mode.isSome ∨ s.final_mode.isSome) :
    (s.merge u).final_mode.isSome := by
  rcases h with h | h
  · cases hu : u.final_mode with
    | none => rw [hu] at h; simp at h
    | some v => simp [OrchestratorState.merge, hu, pick]
  · cases hu : u.final_mode with
    | none => simpa [OrchestratorState.merge, hu, pick] using h
    | some v => simp [OrchestratorState.merge, hu, pick]

/-- The compiled LangGraph workflow built by `_build_graph` computes exactly
the explicit left fold over the four stages. -/
theorem build_graph_invoke_eq (o : StrategicOrchestrator) (s : OrchestratorState) :
    o.build_graph.invoke s =
      runPipeline o.estimator_node o.strategist_node o.shield_node
        o.configurator_node s := by
  cases h1 : o.estimator_node s with
  | error e =>
    simp [CompiledGraph.invoke, StrategicOrchestrator.build_graph, recursionLimit,
      invokeFrom, runPipeline, List.lookup, ENDNode, h1]
  | ok u1 =>
    cases h2 : o.strategist_node (s.merge u1) with
    | error e =>
      simp [CompiledGraph.invoke, StrategicOrchestrator.build_graph, recursionLimit,
        invokeFrom, runPipeline, List.lookup, ENDNode, h1, h2]
    | ok u2 =>
      cases h3 : o.shield_node ((s.merge u1).merge u2) with
      | error e =>
        simp [CompiledGraph.invoke, StrategicOrchestrator.build_graph, recursionLimit,
          invokeFrom, runPipeline, List.lookup, ENDNode, h1, h2, h3]
      | ok u3 =>
        cases h4 : o.configurator_node (((s.merge u1).merge u2).merge u3) with
        | error e =>
          simp [CompiledGraph.invoke, StrategicOrchestrator.build_graph, recursionLimit,
            invokeFrom, runPipeline, List.lookup, ENDNode, h1, h2, h3, h4]
        | ok u4 =>
          simp [CompiledGraph.invoke, StrategicOrchestrator.build_graph, recursionLimit,
            invokeFrom, runPipeline, List.lookup, ENDNode, h1, h2, h3, h4]

/-- A successful pipeline run over step-preserving stages does not change the
`step` key of the graph state. -/
theorem runPipeline_step_eq (est strat shield config : Stage)
    (he : PreservesStep est) (hst : PreservesStep strat)
    (hsh : PreservesStep shield) (hcf : PreservesStep config)
    (s fs : OrchestratorState)
    (h : runPipeline est strat shield config s = .ok fs) :
    fs.step = s.step := by
  unfold runPipeline at h
  cases h1 : est s with
  | error e => simp [h1] at h
  | ok u1 =>
    simp only [h1] at h
    cases h2 : strat (s.merge u1) with
    | error e => simp [h2] at h
    | ok u2 =>
      simp only [h2] at h
      cases h3 : shield ((s.merge u1).merge u2) with
      | error e => simp [h3] at h
      | ok u3 =>
        simp only [h3] at h
        cases h4 : config (((s.merge u1).merge u2).merge u3) with
        | error e => simp [h4] at h
        | ok u4 =>
          simp only [h4, Except.ok.injEq] at h
          subst h
          rw [merge_step_of_none _ _ (hcf _ _ h4),
            merge_step_of_none _ _ (hsh _ _ h3),
            merge_step_of_none _ _ (hst _ _ h2),
            merge_step_of_none _ _ (he _ _ h1)]

/-- With a zero decision interval, `step` increments the counter and then the
modulus check raises `ZeroDivisionError`: no cycle, no tactical action. -/
theorem step_zero_interval (o : StrategicOrchestrator) (m : Metrics)
    (obs : Observation) :
    o.step m obs 0 =
      ⟨{ o with state := o.state.bump }, .error .zeroDivisionError, false⟩ := rfl

/-- Branch of `step` on a non-triggering tick: only the counter changes and the
tactical action is returned. -/
theorem step_not_triggered (o : StrategicOrchestrator) (m : Metrics)
    (obs : Observation) (d : Nat) (hd : d ≠ 0)
    (ht : (o.state.step.getD 0 + 1) % d ≠ 0) :
    o.step m obs d =
      ⟨{ o with state := o.state.bump }, .ok (o.tactical obs), false⟩ := by
  unfold StrategicOrchestrator.step
  simp [hd, ht, OrchestratorState.bump]

/-- Branch of `step` on a triggering tick whose pipeline raises: the
incremented counter stays, the error propagates, no action is returned. -/
theorem step_triggered_error (o : StrategicOrchestrator) (m : Metrics)
    (obs : Observation) (d : Nat) (e : PyError) (hd : d ≠ 0)
    (ht : (o.state.step.getD 0 + 1) % d = 0)
    (hg : ({ o with state := o.state.bump }).build_graph.invoke
      (graphInput o.state.bump m) = .error e) :
    o.step m obs d = ⟨{ o with state := o.state.bump }, .error e, true⟩ := by
  unfold StrategicOrchestrator.step
  simp [hd, ht, OrchestratorState.bump] at hg ⊢
  rw [hg]

/-- Branch of `step` on a triggering tick whose pipeline succeeds: the final
graph state is committed and the tactical action is returned. -/
theorem step_triggered_ok (o : StrategicOrchestrator) (m : Metrics)
    (obs : Observation) (d : Nat) (fs : OrchestratorState) (hd : d ≠ 0)
    (ht : (o.state.step.getD 0 + 1) % d = 0)
    (hg : ({ o with state := o.state.bump }).build_graph.invoke
      (graphInput o.state.bump m) = .ok fs) :
    o.step m obs d = ⟨{ o with state := commitState o.state.bump fs },
      .ok (o.tactical obs), true⟩ := by
  unfold StrategicOrchestrator.step
  simp [hd, ht, OrchestratorState.bump] at hg ⊢
  rw [hg]

/-- The collaborators of an orchestrator are unchanged by a `step` call; only
`self.state` is mutated. -/
theorem step_collaborators_eq (o : StrategicOrchestrator) (m : Metrics)
    (obs : Observation) (d : Nat) :
    (o.step m obs d).orch.estimator_node = o.estimator_node ∧
    (o.step m obs d).orch.strategist_node = o.strategist_node ∧
    (o.step m obs d).orch.shield_node = o.shield_node ∧
    (o.step m obs d).orch.configurator_node = o.configurator_node ∧
    (o.step m obs d).orch.tactical = o.tactical := by
  unfold StrategicOrchestrator.step
  dsimp only
  split
  · exact ⟨rfl, rfl, rfl, rfl, rfl⟩
  · split
    · split <;> exact ⟨rfl, rfl, rfl, rfl, rfl⟩
    · exact ⟨rfl, rfl, rfl, rfl, rfl⟩

/-- Under the spec's stage contracts (no stage output sets the `step` key), one
`step` call takes the counter from its current value to that value plus one,
on every branch (error or not, triggered or not). -/
theorem step_counter_succ (o : StrategicOrchestrator) (m : Metrics)
    (obs : Observation) (d : Nat)
    (he : PreservesStep o.estimator_node) (hst : PreservesStep o.strategist_node)
    (hsh : PreservesStep o.shield_node) (hcf : PreservesStep o.configurator_node) :
    (o.step m obs d).orch.state.step = some (o.state.step.getD 0 + 1) := by
  by_cases hd : d = 0
  · subst hd
    rw [step_zero_interval]
    simp [OrchestratorState.bump]
  · by_cases ht : (o.state.step.getD 0 + 1) % d = 0
    · cases hg : ({ o with state := o.state.bump }).build_graph.invoke
        (graphInput o.state.bump m) with
      | error e =>
        rw [step_triggered_error o m obs d e hd ht hg]
        simp [OrchestratorState.bump]
      | ok fs =>
        rw [step_triggered_ok o m obs d fs hd ht hg]
        have hfs : fs.step = (graphInput o.state.bump m).step := by
          rw [build_graph_invoke_eq] at hg
          exact runPipeline_step_eq _ _ _ _ he hst hsh hcf _ _ hg
        simp only [graphInput, OrchestratorState.bump] at hfs
        simp [commitState, OrchestratorState.merge, OrchestratorState.bump,
          hfs, pick]
    · rw [step_not_triggered o m obs d hd ht]
      simp [OrchestratorState.bump]

/-- The strategic branch is entered exactly when the post-increment counter is
divisible by the (nonzero) decision interval. -/
theorem step_cycleRan_iff (o : StrategicOrchestrator) (m : Metrics)
    (obs : Observation) (d : Nat) (hd : d ≠ 0) :
    (o.step m obs d).cycleRan = true ↔ (o.state.step.getD 0 + 1) % d = 0 := by
  by_cases ht : (o.state.step.getD 0 + 1) % d = 0
  · cases hg : ({ o with state := o.state.bump }).build_graph.invoke
      (graphInput o.state.bump m) with
    | error e => rw [step_triggered_error o m obs d e hd ht hg]; simpa using ht
    | ok fs => rw [step_triggered_ok o m obs d fs hd ht hg]; simpa using ht
  · rw [step_not_triggered o m obs d hd ht]; simpa using ht

/-- On any call that does not enter the strategic branch (a non-triggering
tick, or the `ZeroDivisionError` tick of a zero interval), the persistent
state changes only by the counter increment of source line 87. -/
theorem step_state_no_trigger (o : StrategicOrchestrator) (m : Metrics)
    (obs : Observation) (d : Nat)
    (h : (o.step m obs d).cycleRan = false) :
    (o.step m obs d).orch.state = o.state.bump := by
  by_cases hd : d = 0
  · subst hd; rw [step_zero_interval]
  · by_cases ht : (o.state.step.getD 0 + 1) % d = 0
    · exfalso
      have := (step_cycleRan_iff o m obs d hd).mpr ht
      rw [h] at this
      exact Bool.false_ne_true this
    · rw [step_not_triggered o m obs d hd ht]

/-- Iterated calls under the stage contracts: after `n` further calls the
counter has advanced by exactly `n`. -/
theorem runSteps_counter (m : Metrics) (obs : Observation) (d : Nat) (n : Nat)
    (o : StrategicOrchestrator) (k : Nat)
    (he : PreservesStep o.estimator_node) (hst : PreservesStep o.strategist_node)
    (hsh : PreservesStep o.shield_node) (hcf : PreservesStep o.configurator_node)
    (hk : o.state.step = some k) :
    (runSteps m obs d o n).state.step = some (k + n) := by
  induction n generalizing o k with
  | zero => rw [runSteps]; simpa using hk
  | succ n ih =>
    rw [runSteps]
    obtain ⟨c1, c2, c3, c4, _⟩ := step_collaborators_eq o m obs d
    have h2 : (o.step m obs d).orch.state.step = some (k + 1) := by
      rw [step_counter_succ o m obs d he hst hsh hcf, hk]
      simp
    have h3 := ih ((o.step m obs d).orch) (k + 1)
      (by rw [c1]; exact he) (by rw [c2]; exact hst)
      (by rw [c3]; exact hsh) (by rw [c4]; exact hcf) h2
    rw [h3]
    congr 1
    omega

/-- Iterated calls none of which triggers: the whole persistent state is the
original one with only the counter advanced (no stage contract needed, since
the pipeline never runs). -/
theorem runSteps_no_trigger (m : Metrics) (obs : Observation) (d : Nat) (n : Nat)
    (o : StrategicOrchestrator) (k : Nat) (hk : o.state.step = some k)
    (hno : ∀ i, i < n → (k + i + 1) % d ≠ 0) :
    (runSteps m obs d o n).state = { o.state with step := some (k + n) } := by
  induction n generalizing o k with
  | zero =>
    rw [runSteps]
    conv_rhs => rw [Nat.add_zero, ← hk]
  | succ n ih =>
    rw [runSteps]
    have hfirst : (o.step m obs d).orch.state = o.state.bump := by
      by_cases hd : d = 0
      · subst hd; rw [step_zero_interval]
      · refine step_state_no_trigger o m obs d ?_
        have ht : ¬(o.state.step.getD 0 + 1) % d = 0 := by
          have := hno 0 (Nat.succ_pos n)
          simpa [hk] using this
        rw [step_not_triggered o m obs d hd ht]
    have hbump : (o.step m obs d).orch.state.step = some (k + 1) := by
      rw [hfirst]
      simp [OrchestratorState.bump, hk]
    have h3 := ih ((o.step m obs d).orch) (k + 1) hbump
      (fun i hi => by
        have := hno (i + 1) (by omega)
        
        simpa [Nat.add_assoc, Nat.add_comm, Nat.add_left_comm] using this)
    have harith : k + 1 + n = k + (n + 1) := by omega
    rw [h3, hfirst, harith]
    rfl

/-- The commit of source lines 108-112 forces `current_mode` to equal
`final_mode` whenever the committed state carries a `final_mode` key. -/
theorem commit_mode_eq (s1 fs : OrchestratorState)
    (h : (s1.merge fs).final_mode.isSome) :
    (commitState s1 fs).current_mode = (commitState s1 fs).final_mode := by
  obtain ⟨v, hv⟩ := Option.isSome_iff_exists.mp h
  simp [commitState, hv]

/-- A successful pipeline run whose shield stage honours its contract yields a
final state carrying a `final_mode` key. -/
theorem runPipeline_final_mode_isSome (est strat shield config : Stage)
    (hsh : SetsFinalMode shield) (s fs : OrchestratorState)
    (h : runPipeline est strat shield config s = .ok fs) :
    fs.final_mode.isSome := by
  unfold runPipeline at h
  cases h1 : est s with
  | error e => simp [h1] at h
  | ok u1 =>
    simp only [h1] at h
    cases h2 : strat (s.merge u1) with
    | error e => simp [h2] at h
    | ok u2 =>
      simp only [h2] at h
      cases h3 : shield ((s.merge u1).merge u2) with
      | error e => simp [h3] at h
      | ok u3 =>
        simp only [h3] at h
        cases h4 : config (((s.merge u1).merge u2).merge u3) with
        | error e => simp [h4] at h
        | ok u4 =>
          simp only [h4, Except.ok.injEq] at h
          subst h
          exact merge_final_mode_isSome _ _
            (Or.inr (merge_final_mode_isSome _ _ (Or.inl (hsh _ _ h3))))

/-! ### Claim theorems -/

/-- C1: After every completed strategic cycle — a call to `step` in which the
pipeline runs (`cycleRan`) and commits (an action is returned rather than an
error) — the orchestrator's `current_mode` equals the committed `final_mode`
(Invariant I1). The hypothesis that the Shield's output always carries
`final_mode` is its spec §4.5 contract (the concrete ShieldNode is a
repository file absent from src/). -/
theorem mode_consistency_after_cycle (o : StrategicOrchestrator) (m : Metrics)
    (obs : Observation) (d : Nat)
    (hshield : SetsFinalMode o.shield_node)
    (hran : (o.step m obs d).cycleRan = true)
    (hcommit : returnedAction (o.step m obs d).result = true) :
    (o.step m obs d).orch.state.current_mode =
      (o.step m obs d).orch.state.final_mode := by
  by_cases hd : d = 0
  · subst hd
    rw [step_zero_interval] at hran
    exact absurd hran (by simp)
  · by_cases ht : (o.state.step.getD 0 + 1) % d = 0
    · cases hg : ({ o with state := o.state.bump }).build_graph.invoke
        (graphInput o.state.bump m) with
      | error e =>
        rw [step_triggered_error o m obs d e hd ht hg] at hcommit
        exact absurd hcommit (by simp [returnedAction])
      | ok fs =>
        rw [step_triggered_ok o m obs d fs hd ht hg]
        refine commit_mode_eq _ _ ?_
        have hfs : fs.final_mode.isSome := by
          rw [build_graph_invoke_eq] at hg
          exact runPipeline_final_mode_isSome _ _ _ _ hshield _ _ hg
        exact merge_final_mode_isSome _ _ (Or.inl hfs)
    · rw [step_not_triggered o m obs d hd ht] at hran
      exact absurd hran (by simp)

/-- Witness for C1: a concrete triggered, committed cycle on `sampleOrch` with
interval 1. -/
theorem mode_consistency_after_cycle_witness :
    SetsFinalMode sampleOrch.shield_node ∧
    (sampleOrch.step [] [] 1).cycleRan = true ∧
    returnedAction (sampleOrch.step [] [] 1).result = true ∧
    (sampleOrch.step [] [] 1).orch.state.current_mode =
      (sampleOrch.step [] [] 1).orch.state.final_mode := by
  have hsh : SetsFinalMode sampleOrch.shield_node := by
    intro s u h
    simp only [sampleOrch, mkOrchestrator, constShield, Except.ok.injEq] at h
    subst h
    rfl
  exact ⟨hsh, by decide, by decide,
    mode_consistency_after_cycle sampleOrch [] [] 1 hsh (by decide) (by decide)⟩

/-- C2: for every call sequence from a freshly constructed orchestrator and
every positive decision interval, the strategic branch is entered on call
`n + 1` exactly when the post-increment counter `n + 1` is divisible by the
interval; with interval 2 this means calls 2 and 4 trigger while calls 1 and 3
do not. The stage-contract hypotheses (§4.3-4.6: no stage output sets the
`step` key) keep the counter authoritative across cycles. -/
theorem cycle_trigger_modulus (tac : Observation → TacticalAction)
    (est strat sh cf : Stage) (m : Metrics) (obs : Observation)
    (he : PreservesStep est) (hst : PreservesStep strat)
    (hsh : PreservesStep sh) (hcf : PreservesStep cf) :
    (∀ d n, 0 < d →
      (((runSteps m obs d (mkOrchestrator tac est strat sh cf) n).step m obs d).cycleRan
          = true ↔ (n + 1) % d = 0)) ∧
    ((runSteps m obs 2 (mkOrchestrator tac est strat sh cf) 1).step m obs 2).cycleRan = true ∧
    ((runSteps m obs 2 (mkOrchestrator tac est strat sh cf) 3).step m obs 2).cycleRan = true ∧
    ((runSteps m obs 2 (mkOrchestrator tac est strat sh cf) 0).step m obs 2).cycleRan = false ∧
    ((runSteps m obs 2 (mkOrchestrator tac est strat sh cf) 2).step m obs 2).cycleRan = false := by
  have main : ∀ d n, 0 < d →
      (((runSteps m obs d (mkOrchestrator tac est strat sh cf) n).step m obs d).cycleRan
        = true ↔ (n + 1) % d = 0) := by
    intro d n hd
    have hcount : (runSteps m obs d (mkOrchestrator tac est strat sh cf) n).state.step
        = some (0 + n) :=
      runSteps_counter m obs d n (mkOrchestrator tac est strat sh cf) 0
        he hst hsh hcf rfl
    rw [step_cycleRan_iff _ m obs d (Nat.pos_iff_ne_zero.mp hd), hcount]
    simp
  refine ⟨main, ?_, ?_, ?_, ?_⟩
  · exact (main 2 1 (by norm_num)).mpr (by norm_num)
  · exact (main 2 3 (by norm_num)).mpr (by norm_num)
  · have h := main 2 0 (by norm_num)
    simp at h
    exact h
  · have h := main 2 2 (by norm_num)
    simp at h
    exact h

/-- Witness for C2: discharge the stage contracts for trivial concrete stages
and read off the call-2 trigger with interval 2. -/
theorem cycle_trigger_modulus_witness :
    PreservesStep idStage ∧
    PreservesStep (constShield ControlMode.AGGRESSIVE.value) ∧
    ((runSteps [] [] 2 (mkOrchestrator zeroAct idStage idStage
        (constShield ControlMode.AGGRESSIVE.value) idStage) 1).step [] [] 2).cycleRan
      = true := by
  have hid : PreservesStep idStage := by
    intro s u h
    simp only [idStage, Except.ok.injEq] at h
    subst h
    rfl
  have hcs : PreservesStep (constShield ControlMode.AGGRESSIVE.value) := by
    intro s u h
    simp only [constShield, Except.ok.injEq] at h
    subst h
    rfl
  exact ⟨hid, hcs,
    (cycle_trigger_modulus zeroAct idStage idStage
      (constShield ControlMode.AGGRESSIVE.value) idStage [] [] hid hid hcs hid).2.1⟩

/-- C5: the strategic pipeline compiled by `_build_graph` is exactly the fixed
linear fold Estimator, then Strategist, then Shield, then Configurator — no
branching, no cycles — with each stage's partial update merged into the
running state before the next stage runs (`runPipeline` is that explicit
left fold, written from spec §4.2 for comparison). -/
theorem pipeline_fixed_linear_sequence (o : StrategicOrchestrator)
    (s : OrchestratorState) :
    o.build_graph.invoke s =
      runPipeline o.estimator_node o.strategist_node o.shield_node
        o.configurator_node s :=
  build_graph_invoke_eq o s

/-- C6: the `step` counter strictly increases by exactly 1 on every call to
`step` — on every branch, including aborted cycles and the zero-interval
error — so it never decreases and never repeats (Invariant I2). The
stage-contract hypotheses (§4.3-4.6) rule out a stage output overwriting the
`step` key through the commit of line 108. -/
theorem counter_strictly_increments (o : StrategicOrchestrator) (m : Metrics)
    (obs : Observation) (d : Nat) (k : Nat)
    (he : PreservesStep o.estimator_node) (hst : PreservesStep o.strategist_node)
    (hsh : PreservesStep o.shield_node) (hcf : PreservesStep o.configurator_node)
    (hk : o.state.step = some k) :
    (o.step m obs d).orch.state.step = some (k + 1) := by
  rw [step_counter_succ o m obs d he hst hsh hcf, hk]
  simp

/-- Witness for C6: one call on the fresh `sampleOrch` takes the counter from
0 to 1. -/
theorem counter_strictly_increments_witness :
    PreservesStep sampleOrch.estimator_node ∧
    sampleOrch.state.step = some 0 ∧
    (sampleOrch.step [] [] 500).orch.state.step = some 1 := by
  have hid : PreservesStep idStage := by
    intro s u h
    simp only [idStage, Except.ok.injEq] at h
    subst h
    rfl
  have hcs : PreservesStep (constShield ControlMode.AGGRESSIVE.value) := by
    intro s u h
    simp only [constShield, Except.ok.injEq] at h
    subst h
    rfl
  exact ⟨hid, rfl,
    counter_strictly_increments sampleOrch [] [] 500 0 hid hid hcs hid rfl⟩

/-- C8: `get_debug_info` returns the snapshot
`{mode, symbolic_state, reasoning, shield_active}` read from the last
committed state (`mode` from the `final_mode` key) and has no side effects:
the orchestrator it leaves behind is exactly the one it was called on. -/
theorem get_debug_info_read_only (o : StrategicOrchestrator) :
    (o.get_debug_info).1 = o ∧
    (o.get_debug_info).2.mode = o.state.final_mode ∧
    (o.get_debug_info).2.symbolic_state = o.state.symbolic_state ∧
    (o.get_debug_info).2.reasoning = o.state.reasoning ∧
    (o.get_debug_info).2.shield_active = o.state.shield_active :=
  ⟨rfl, rfl, rfl, rfl, rfl⟩

/-- C9: with `decision_interval = 0`, every call to `step` increments the
counter and then fails at the modulus trigger check with `ZeroDivisionError`:
the strategic branch is never entered (`cycleRan = false`), no tactical action
is produced (the result is the error), and this holds for every orchestrator —
in particular independently of its stages and tactical policy. -/
theorem zero_interval_zero_division (o : StrategicOrchestrator) (m : Metrics)
    (obs : Observation) :
    o.step m obs 0 =
      ⟨{ o with state := o.state.bump }, .error .zeroDivisionError, false⟩ :=
  step_zero_interval o m obs

/-- Counterexample for C3: with an Estimator that raises `StageError` and
interval 1, the very first call to `step` propagates the error out of `step` —
no tactical action is produced and the result is not `act`'s output, refuting
the claim that a strategic failure cannot prevent a tactical action. -/
theorem step_error_propagates_counterexample :
    (failingEstOrch.step [] [] 1).result = .error .stageError ∧
    returnedAction (failingEstOrch.step [] [] 1).result = false ∧
    (failingEstOrch.step [] [] 1).result ≠ .ok (failingEstOrch.tactical []) := by
  have hres : (failingEstOrch.step [] [] 1).result = .error .stageError := rfl
  refine ⟨hres, by decide, ?_⟩
  rw [hres]
  intro h
  exact Except.noConfusion h

/-- C3 (amended): for any nonzero decision interval, whenever a call to `step`
returns a value at all that value is exactly `TacticalExecutor.act(observation)`
— on every non-triggering tick and on every successfully committed cycle; but
a failure raised inside the strategic cycle propagates to the caller of `step`
(as spec §7 states), so such a call produces no tactical action, and a missing
action can only come from a triggered cycle. -/
theorem step_returns_tactical_action (o : StrategicOrchestrator) (m : Metrics)
    (obs : Observation) (d : Nat) (hd : d ≠ 0) :
    (∀ a, (o.step m obs d).result = .ok a → a = o.tactical obs) ∧
    (returnedAction (o.step m obs d).result = false →
      (o.step m obs d).cycleRan = true) := by
  by_cases ht : (o.state.step.getD 0 + 1) % d = 0
  · cases hg : ({ o with state := o.state.bump }).build_graph.invoke
      (graphInput o.state.bump m) with
    | error e =>
      rw [step_triggered_error o m obs d e hd ht hg]
      exact ⟨fun a ha => Except.noConfusion ha, fun _ => rfl⟩
    | ok fs =>
      rw [step_triggered_ok o m obs d fs hd ht hg]
      exact ⟨fun a ha => (Except.ok.inj ha).symm,
        fun hfalse => by simp [returnedAction] at hfalse⟩
  · rw [step_not_triggered o m obs d hd ht]
    exact ⟨fun a ha => (Except.ok.inj ha).symm,
      fun hfalse => by simp [returnedAction] at hfalse⟩

/-- Witness for C3 (amended): interval 1 on `sampleOrch`. -/
theorem step_returns_tactical_action_witness :
    (1 : Nat) ≠ 0 ∧
    (∀ a, (sampleOrch.step [] [] 1).result = .ok a → a = sampleOrch.tactical []) :=
  ⟨by decide, (step_returns_tactical_action sampleOrch [] [] 1 (by decide)).1⟩

/-- Counterexample for C4: when the Estimator raises `StageError` mid-cycle,
the `OrchestratorState` after the `step` call differs from the state before
the call — the `step` counter was already incremented at source line 87 and is
not rolled back. -/
theorem no_partial_update_counterexample :
    (failingEstOrch.step [] [] 1).result = .error .stageError ∧
    (failingEstOrch.step [] [] 1).orch.state ≠ failingEstOrch.state :=
  ⟨rfl, by decide⟩

/-- C4 (amended): if a stage raises mid-cycle (the strategic branch was
entered and the call propagated an error), the aborted cycle commits nothing:
the persistent state after the call is exactly the state before it except for
the `step` counter, which was already incremented before the trigger check;
every other field is untouched. -/
theorem mid_cycle_abort_frame (o : StrategicOrchestrator) (m : Metrics)
    (obs : Observation) (d : Nat) (e : PyError)
    (hran : (o.step m obs d).cycleRan = true)
    (hres : (o.step m obs d).result = .error e) :
    (o.step m obs d).orch.state =
      { o.state with step := some (o.state.step.getD 0 + 1) } := by
  by_cases hd : d = 0
  · subst hd
    rw [step_zero_interval] at hran
    exact absurd hran (by simp)
  · by_cases ht : (o.state.step.getD 0 + 1) % d = 0
    · cases hg : ({ o with state := o.state.bump }).build_graph.invoke
        (graphInput o.state.bump m) with
      | error e2 =>
        rw [step_triggered_error o m obs d e2 hd ht hg]
        rfl
      | ok fs =>
        rw [step_triggered_ok o m obs d fs hd ht hg] at hres
        exact absurd hres (fun h => Except.noConfusion h)
    · rw [step_not_triggered o m obs d hd ht] at hran
      exact absurd hran (by simp)

/-- Witness for C4 (amended): the failing-Estimator orchestrator at
interval 1. -/
theorem mid_cycle_abort_frame_witness :
    (failingEstOrch.step [] [] 1).cycleRan = true ∧
    (failingEstOrch.step [] [] 1).result = .error .stageError ∧
    (failingEstOrch.step [] [] 1).orch.state =
      { failingEstOrch.state with
        step := some (failingEstOrch.state.step.getD 0 + 1) } :=
  ⟨by decide, rfl,
    mid_cycle_abort_frame failingEstOrch [] [] 1 .stageError (by decide) rfl⟩

/-- Counterexample for C7: on a tick where no strategic cycle triggers
(interval 500, first call), the persistent state still changes — the `step`
counter is incremented unconditionally at source line 87. -/
theorem untriggered_tick_counterexample :
    (sampleOrch.step [] [] 500).cycleRan = false ∧
    (sampleOrch.step [] [] 500).orch.state ≠ sampleOrch.state :=
  ⟨by decide, by decide⟩

/-- C7 (amended): `OrchestratorState` is created once at construction with the
default BALANCED mode, an empty history, a zero counter, and no other keys;
on any call in which the strategic branch is not entered, every field other
than the unconditionally incremented `step` counter is unchanged. -/
theorem state_lifecycle_frame :
    (∀ (tac : Observation → TacticalAction) (est strat sh cf : Stage),
      (mkOrchestrator tac est strat sh cf).state =
        { OrchestratorState.empty with
          step := some 0,
          current_mode := some ControlMode.BALANCED.value,
          history := some [] }) ∧
    (∀ (o : StrategicOrchestrator) (m : Metrics) (obs : Observation) (d : Nat),
      (o.step m obs d).cycleRan = false →
      (o.step m obs d).orch.state =
        { o.state with step := some (o.state.step.getD 0 + 1) }) := by
  refine ⟨fun tac est strat sh cf => rfl, fun o m obs d h => ?_⟩
  rw [step_state_no_trigger o m obs d h]
  rfl

/-- Witness for C7 (amended): the first call on `sampleOrch` with the default
interval 500 does not trigger and changes only the counter. -/
theorem state_lifecycle_frame_witness :
    (sampleOrch.step [] [] 500).cycleRan = false ∧
    (sampleOrch.step [] [] 500).orch.state =
      { sampleOrch.state with
        step := some (sampleOrch.state.step.getD 0 + 1) } :=
  ⟨by decide, state_lifecycle_frame.2 sampleOrch [] [] 500 (by decide)⟩

/-- C10: before the first triggered strategic cycle (any run of `n` calls with
`n < d`, so the modulus never fires), `get_debug_info` returns `None` for all
four fields even though `current_mode` is already BALANCED; and the snapshot's
`mode` field always reports the `final_mode` key, never `current_mode`, so the
two can differ at the public interface. -/
theorem debug_info_before_first_cycle (tac : Observation → TacticalAction)
    (est strat sh cf : Stage) (m : Metrics) (obs : Observation) (d n : Nat)
    (h : n < d) :
    ((runSteps m obs d (mkOrchestrator tac est strat sh cf) n).get_debug_info).2 =
      ⟨none, none, none, none⟩ ∧
    (runSteps m obs d (mkOrchestrator tac est strat sh cf) n).state.current_mode =
      some ControlMode.BALANCED.value ∧
    ∀ o2 : StrategicOrchestrator, (o2.get_debug_info).2.mode = o2.state.final_mode := by
  have hstate := runSteps_no_trigger m obs d n (mkOrchestrator tac est strat sh cf) 0 rfl
    (fun i hi => by
      simp only [Nat.zero_add]
      rw [Nat.mod_eq_of_lt (by omega)]
      omega)
  refine ⟨?_, ?_, fun o2 => rfl⟩
  · simp only [StrategicOrchestrator.get_debug_info]
    rw [hstate]
    simp [mkOrchestrator, OrchestratorState.empty]
  · rw [hstate]
    simp [mkOrchestrator, OrchestratorState.empty]

/-- Witness for C10: one untriggered call (interval 2). -/
theorem debug_info_before_first_cycle_witness :
    (1 : Nat) < 2 ∧
    ((runSteps [] [] 2 (mkOrchestrator zeroAct idStage idStage
        (constShield ControlMode.AGGRESSIVE.value) idStage) 1).get_debug_info).2 =
      ⟨none, none, none, none⟩ :=
  ⟨by decide, (debug_info_before_first_cycle zeroAct idStage idStage
    (constShield ControlMode.AGGRESSIVE.value) idStage [] [] 2 1 (by decide)).1⟩
